import Mathlib

/-!
Verification of the on-screen-keyboard input engine of `wlx-overlay-s`
(`src/wayvr/src/overlays/keyboard/mod.rs` and `swipe_type.rs`).

The embedding translates the source functions directly.  External
collaborators (HID routing, the gesture-prediction engine, the clipboard,
dbus, process spawning) are modelled as explicit state or environment
records, and every Rust `unwrap`/indexing panic is modelled by an `Option`
result where `none` means the program aborts.  Machine floats (`f32`/`f64`)
used by the geometry builder are modelled as rationals; the builder only
adds them, so the algebra is faithful.  Types that live in files of this
repository that are not part of the two sources (`layout.rs`,
`subsystem/hid`, `builder.rs`) are modelled from the specification and say
so in their doc comments.
-/

set_option linter.unusedVariables false

namespace WlxKbd

/-- Modelled from the spec: a virtual key code routed to the target input
system.  The `VirtualKey` enum lives in `subsystem/hid`, which is not under
`src/`; only its identity matters here. -/
structure VirtualKey where
  code : Nat
deriving DecidableEq

/-- Modelled from the spec: the `Insert` virtual key used by the paste
gesture after a swipe completes. -/
def VirtualKey.Insert : VirtualKey := ⟨118⟩

/-- Modelled from the spec: `KeyModifier` (from `subsystem/hid`, not under
`src/`) is a 16-bit held-modifier bitmask. -/
abbrev KeyModifier := Nat

/-- Modelled from the spec: the five auto-release modifiers are distinct
single bits of the mask (`subsystem/hid` is not under `src/`). -/
def SHIFT : KeyModifier := 1

/-- Modelled from the spec: the CTRL modifier bit. -/
def CTRL : KeyModifier := 2

/-- Modelled from the spec: the ALT modifier bit. -/
def ALT : KeyModifier := 4

/-- Modelled from the spec: the SUPER modifier bit. -/
def SUPER : KeyModifier := 8

/-- Modelled from the spec: the META modifier bit. -/
def META : KeyModifier := 16

/-- Rust's bitwise complement `!` on the 16-bit modifier mask. -/
def modNot (m : KeyModifier) : KeyModifier := 65535 ^^^ m

/-- Embedding of the constant `AUTO_RELEASE_MODS` (mod.rs line 53). -/
def AUTO_RELEASE_MODS : List KeyModifier := [SHIFT, CTRL, ALT, SUPER, META]

/-- Embedding of the constant `SYSTEM_LAYOUT_ALIASES` (mod.rs line 54). -/
def SYSTEM_LAYOUT_ALIASES : List String :=
  ["mozc", "pinyin", "hangul", "sayura", "unikey"]

/-- Modelled from the spec: cap-type classification of a rendered key's
label (`layout.rs` is not under `src/`); the embedded code only
distinguishes `Letter` from everything else. -/
inductive KeyCapType where
  | Letter
  | Other
deriving DecidableEq

/-- Modelled from the spec: an XKB keymap's identity is a layout name plus a
variant, and it records whether an AltGr level exists (`subsystem/hid` is
not under `src/`).  `name` is what `get_name()` returns. -/
structure XkbKeymap where
  name : Option String
  variant : String
  altgr : Bool
deriving DecidableEq

/-- Embedding of `XkbKeymap::get_name`. -/
def XkbKeymap.get_name (k : XkbKeymap) : Option String := k.name

/-- Embedding of `XkbKeymap::has_altgr`. -/
def XkbKeymap.has_altgr (k : XkbKeymap) : Bool := k.altgr

/-- A ranked candidate returned by the external prediction component
(`super_swipe_engine` crate): a word with a score. -/
structure Prediction where
  word : String
  score : Int

/-- The external gesture-prediction engine, modelled by its only used
operation: `predict (path) (context) (topN)` returning ranked candidates. -/
structure SwipeEngine where
  predict : String → Option String → Nat → List Prediction

/-- The external clipboard handle (`arboard` crate): the last text written,
and whether writes succeed. -/
structure Clipboard where
  contents : Option String
  ok : Bool
deriving DecidableEq

/-- A fresh clipboard handle, as built by `Clipboard::new()`. -/
def Clipboard.new : Clipboard := ⟨none, true⟩

/-- A spawned external process; `exited` is what `try_wait` reports. -/
structure Child where
  pid : Nat
  exited : Bool
deriving DecidableEq

/-- The external overlay-list GUI component owned by the keyboard state;
only its default value matters to the embedded code. -/
structure OverlayList where
  data : List Nat
deriving DecidableEq

instance : Inhabited OverlayList := ⟨⟨[]⟩⟩

/-- The external set-list GUI component owned by the keyboard state; only
its default value matters to the embedded code. -/
structure SetList where
  data : List Nat
deriving DecidableEq

instance : Inhabited SetList := ⟨⟨[]⟩⟩

/-- Modelled from the spec: the pointer button that performed the touch
(from the external `wgui` crate); the code only distinguishes Right and
Middle. -/
inductive MouseButtonIndex where
  | Left
  | Right
  | Middle
deriving DecidableEq

/-- Environment of the key-event state machine: the `WAYLAND_DISPLAY`
variable read by the clipboard helper, and the outcome of spawning an
external process. -/
structure Env where
  waylandDisplay : Option String
  spawn : String → List String → Option Child

/-- Side effects routed to the host by the key-event state machine, in
order: modifier-mask routing, key events, audio feedback, and invocations
of the external prediction component. -/
inductive Effect where
  | setModifiers (mask : KeyModifier)
  | sendKey (vk : VirtualKey) (press : Bool)
  | playSound
  | predictCall (path : String) (ctx : Option String) (topN : Nat)
deriving DecidableEq

/-- Rust's `str::to_ascii_lowercase`: lower-cases ASCII letters only,
exactly what `Char.toLower` does per character. -/
def asciiLower (s : String) : String := ⟨s.data.map Char.toLower⟩

/-- Embedding of `KeyboardState` (mod.rs lines 353-369). -/
structure KeyboardState where
  modifiers : KeyModifier
  alt_modifier : KeyModifier
  processes : List Child
  overlay_list : OverlayList
  set_list : SetList
  clock_12h : Bool
  swipe_engine : Option SwipeEngine
  current_swipe_input : String
  last_pressed_key_label : String
  is_swiping : Bool
  clipboard : Clipboard
  last_swiped_word : Option String

/-- Embedding of `KeyboardState::take` (mod.rs lines 379-396): the first
component is the returned state (the four persisted fields copied or moved
over, everything else fresh), the second is what remains in `self`
(`processes` swapped out for the default empty list). -/
def KeyboardState.take (s : KeyboardState) : KeyboardState × KeyboardState :=
  ({ modifiers := s.modifiers
     alt_modifier := s.alt_modifier
     processes := s.processes
     overlay_list := default
     set_list := default
     clock_12h := s.clock_12h
     swipe_engine := none
     current_swipe_input := ""
     last_pressed_key_label := ""
     is_swiping := false
     clipboard := Clipboard.new
     last_swiped_word := none },
   { s with processes := [] })

/-- Embedding of `KeyButtonData` (mod.rs lines 413-432); the `Cell`
contents (`pressed`, `sticky`) are plain fields, updated by returning a new
value. -/
inductive KeyButtonData where
  | Key (vk : VirtualKey) (pressed : Bool)
  | Modifier (modifier : KeyModifier) (sticky : Bool)
  | Macro (verbs : List (VirtualKey × Bool))
  | Exec (program : String) (args : List String)
      (release_program : Option String) (release_args : List String)

/-- Embedding of `copy_text_to_primary_clipboard` (swipe_type.rs lines
12-16): reads the `WAYLAND_DISPLAY` environment variable (the `unwrap`
panics when it is unset), then writes `text` plus a trailing space to the
clipboard (the `unwrap` panics when the write fails).  `none` models a
panic. -/
def copy_text_to_primary_clipboard (env : Env) (text : String)
    (clip : Clipboard) : Option Clipboard :=
  match env.waylandDisplay with
  | none => none
  | some _ =>
    if clip.ok then some { clip with contents := some (text ++ " ") } else none

/-- Embedding of `handle_enter` (mod.rs lines 434-448).  `none` models the
panic of `key_label.iter().next().unwrap()` on an unlabeled key. -/
def handle_enter (key : KeyButtonData) (key_label : List String)
    (key_cap_type : KeyCapType) (keyboard : KeyboardState) :
    Option KeyboardState :=
  match keyboard.swipe_engine with
  | some _ =>
    if key_cap_type = KeyCapType.Letter then
      match key_label.head? with
      | none => none
      | some l =>
        let kb1 := if l ≠ keyboard.last_pressed_key_label then
            { keyboard with is_swiping := true } else keyboard
        if kb1.is_swiping then
          match key with
          | KeyButtonData.Key _ _ =>
            some { kb1 with
              current_swipe_input := kb1.current_swipe_input ++ asciiLower l }
          | _ => some kb1
        else
          some kb1
    else
      some keyboard
  | none => some keyboard

/-- Embedding of `handle_press` (mod.rs lines 449-506), returning the
updated key cells, the updated keyboard state and the routed side effects;
`none` models the label `unwrap` panic. -/
def handle_press (env : Env) (key : KeyButtonData) (key_cap_type : KeyCapType)
    (key_label : List String) (keyboard : KeyboardState)
    (button : MouseButtonIndex) :
    Option (KeyButtonData × KeyboardState × List Effect) :=
  let kb0 := { keyboard with is_swiping := false }
  match key with
  | KeyButtonData.Key vk pressed =>
    let plain : Option (KeyButtonData × KeyboardState × List Effect) :=
      let add := match button with
        | MouseButtonIndex.Right => SHIFT
        | MouseButtonIndex.Middle => kb0.alt_modifier
        | _ => 0
      let mods := kb0.modifiers ||| add
      some (KeyButtonData.Key vk true, { kb0 with modifiers := mods },
        [Effect.setModifiers mods, Effect.sendKey vk true, Effect.playSound])
    match kb0.swipe_engine with
    | some _ =>
      if key_cap_type = KeyCapType.Letter then
        match key_label.head? with
        | none => none
        | some actual_label =>
          some (KeyButtonData.Key vk pressed,
            { kb0 with last_pressed_key_label := actual_label,
                       current_swipe_input := asciiLower actual_label },
            [])
      else plain
    | none => plain
  | KeyButtonData.Modifier m sticky =>
    let newSticky := kb0.modifiers &&& m == 0
    let mods := kb0.modifiers ||| m
    some (KeyButtonData.Modifier m newSticky, { kb0 with modifiers := mods },
      [Effect.setModifiers mods, Effect.playSound])
  | KeyButtonData.Macro verbs =>
    some (KeyButtonData.Macro verbs, kb0,
      (verbs.map fun v => Effect.sendKey v.1 v.2) ++ [Effect.playSound])
  | KeyButtonData.Exec program args rp ra =>
    let reaped := kb0.processes.filter fun c => !c.exited
    let procs := match env.spawn program args with
      | some child => reaped ++ [child]
      | none => reaped
    some (KeyButtonData.Exec program args rp ra,
      { kb0 with processes := procs }, [Effect.playSound])

/-- One iteration of the auto-release loop in `handle_release` (mod.rs
lines 546-550): clear the bit from the mask when it is held. -/
def autoReleaseStep (m : KeyModifier) (b : KeyModifier) : KeyModifier :=
  if m &&& b ≠ 0 then m &&& modNot b else m

/-- The whole auto-release loop of `handle_release`: fold
`autoReleaseStep` over `AUTO_RELEASE_MODS`. -/
def autoRelease (m : KeyModifier) : KeyModifier :=
  AUTO_RELEASE_MODS.foldl autoReleaseStep m

/-- Embedding of `handle_release` (mod.rs lines 508-587), returning the
updated key cells, keyboard state, routed side effects and the consumed
flag.  `none` models the panics of the swipe-completion branch (empty
prediction list, unset `WAYLAND_DISPLAY`, failed clipboard write). -/
def handle_release (env : Env) (key : KeyButtonData) (k_cap_type : KeyCapType)
    (keyboard : KeyboardState) :
    Option (KeyButtonData × KeyboardState × List Effect × Bool) :=
  match key with
  | KeyButtonData.Key vk pressed =>
    let plain : Option (KeyButtonData × KeyboardState × List Effect × Bool) :=
      let mods := autoRelease keyboard.modifiers
      some (KeyButtonData.Key vk false, { keyboard with modifiers := mods },
        [Effect.sendKey vk false, Effect.setModifiers mods], true)
    match keyboard.swipe_engine with
    | some engine =>
      if k_cap_type = KeyCapType.Letter then
        if keyboard.is_swiping then
          if keyboard.current_swipe_input ≠ "" then
            let prediction := engine.predict keyboard.current_swipe_input
              keyboard.last_swiped_word 5
            let kb1 := { keyboard with current_swipe_input := "" }
            match prediction.head? with
            | none => none
            | some best =>
              match copy_text_to_primary_clipboard env best.word kb1.clipboard with
              | none => none
              | some clip1 =>
                some (KeyButtonData.Key vk pressed,
                  { kb1 with clipboard := clip1,
                             last_swiped_word := some best.word },
                  [Effect.predictCall keyboard.current_swipe_input
                     keyboard.last_swiped_word 5,
                   Effect.setModifiers SHIFT,
                   Effect.sendKey VirtualKey.Insert true,
                   Effect.sendKey VirtualKey.Insert false,
                   Effect.setModifiers keyboard.modifiers],
                  true)
          else
            some (KeyButtonData.Key vk pressed, keyboard, [], true)
        else
          some (KeyButtonData.Key vk true, keyboard,
            [Effect.sendKey vk true, Effect.sendKey vk false,
             Effect.playSound], true)
      else plain
    | none => plain
  | KeyButtonData.Modifier m sticky =>
    if sticky then
      some (KeyButtonData.Modifier m sticky, keyboard, [], false)
    else
      let mods := keyboard.modifiers &&& modNot m
      some (KeyButtonData.Modifier m sticky, { keyboard with modifiers := mods },
        [Effect.setModifiers mods], true)
  | KeyButtonData.Exec program args rp ra =>
    let reaped := keyboard.processes.filter fun c => !c.exited
    let procs := match rp with
      | some p =>
        match env.spawn p ra with
        | some child => reaped ++ [child]
        | none => reaped
      | none => reaped
    some (KeyButtonData.Exec program args rp ra,
      { keyboard with processes := procs }, [], true)
  | KeyButtonData.Macro verbs =>
    some (KeyButtonData.Macro verbs, keyboard, [], true)

/-- A 2-D coordinate consumed by the prediction engine
(`swipe_types::types::Point`); the `f32`/`f64` machine floats are modelled
as rationals, faithful because the builder only adds them. -/
structure Point where
  x : ℚ
  y : ℚ
deriving DecidableEq

/-- Modelled from the spec: the label data resolved for a key slot
(`layout.rs` is not under `src/`): the label strings currently shown and
the cap-type classification. -/
structure KeyData where
  label : List String
  cap_type : KeyCapType

/-- Modelled from the spec: one key slot of the static layout description
(`layout.rs` is not under `src/`); its content is resolved through
`get_key_data`, so only its presence drives the iteration. -/
structure KeySlot where
  id : Nat
deriving DecidableEq

/-- Modelled from the spec: the static key-layout description (`layout.rs`
is not under `src/`): rows of key slots, the per-key width table
(`key_sizes`), the configured row height, the auto-label toggle, and
`get_key_data`, which resolves the label currently shown on the key at
(col, row) for the given keymap and AltGr availability. -/
structure Layout where
  main_layout : List (List KeySlot)
  key_sizes : List (List ℚ)
  row_height : ℚ
  auto_labels : Option Bool
  get_key_data : Option XkbKeymap → Bool → Nat → Nat → Option KeyData

/-- The lower-cased first character of a label string, as
`s.to_ascii_lowercase().chars().next()`; `none` when the string is empty
(where the source would `unwrap`-panic). -/
def lowerHead (s : String) : Option Char := (asciiLower s).data.head?

/-- The inner column loop of `build_key_to_char_point_map` (swipe_type.rs
lines 32-48): walk the slots of one row left-to-right, inserting the
lower-cased first character of each Letter slot's first label at the
current cursor, then advancing the x-cursor by the key's width.  The map is
an association list where inserting conses to the front, so a lookup finds
the most recent write, as in the source's `HashMap`.  `none` models the
panics: the `unwrap` on an empty label string and the out-of-bounds
indexing of `key_sizes`. -/
def buildCols (km : Option XkbKeymap) (L : Layout) (ha : Bool) (rowIdx : Nat)
    (posY : ℚ) :
    List KeySlot → Nat → ℚ → List (Char × Point) → Option (List (Char × Point))
  | [], _, _, m => some m
  | _ :: rest, colIdx, posX, m =>
    match (L.key_sizes.get? rowIdx).bind (fun r => r.get? colIdx) with
    | none => none
    | some w =>
      match L.get_key_data km ha colIdx rowIdx with
      | some label =>
        match label.cap_type with
        | KeyCapType.Letter =>
          match label.label.head? with
          | some s =>
            match lowerHead s with
            | some c =>
              buildCols km L ha rowIdx posY rest (colIdx + 1) (posX + w)
                ((c, ⟨posX, posY⟩) :: m)
            | none => none
          | none => buildCols km L ha rowIdx posY rest (colIdx + 1) (posX + w) m
        | _ => buildCols km L ha rowIdx posY rest (colIdx + 1) (posX + w) m
      | none => buildCols km L ha rowIdx posY rest (colIdx + 1) (posX + w) m

/-- The outer row loop of `build_key_to_char_point_map` (swipe_type.rs
lines 31-51): after each row the y-cursor advances by the fixed unit `1.0`
(`pos_y += 1.0`) and the x-cursor resets to `0.0`. -/
def buildRows (km : Option XkbKeymap) (L : Layout) (ha : Bool) :
    List (List KeySlot) → Nat → ℚ → List (Char × Point) →
    Option (List (Char × Point))
  | [], _, _, m => some m
  | row :: rest, rowIdx, posY, m =>
    match buildCols km L ha rowIdx posY row 0 0 m with
    | none => none
    | some m1 => buildRows km L ha rest (rowIdx + 1) (posY + 1) m1

/-- Embedding of `build_key_to_char_point_map` (swipe_type.rs lines 24-53). -/
def build_key_to_char_point_map (km : Option XkbKeymap) (L : Layout) :
    Option (List (Char × Point)) :=
  let has_altgr := (km.map XkbKeymap.has_altgr).getD false
  buildRows km L has_altgr L.main_layout 0 0 []

/-- The language passed to the external engine constructor; the source
always uses `LanguageCode::En` (a todo notes the layout name is unused). -/
inductive LanguageCode where
  | En

/-- Environment for engine construction: the external `SwipeEngine::new`
constructor, which may fail with a load error. -/
structure EngineEnv where
  swipeNew : LanguageCode → List (Char × Point) → Except Unit SwipeEngine

/-- Embedding of `create_new_swipe_engine` (swipe_type.rs lines 17-23):
build the point map (whose panics propagate as `none`) and hand it to the
external constructor; the computed `layout_name` is unused in the source
beyond a todo comment. -/
def create_new_swipe_engine (eenv : EngineEnv) (km : Option XkbKeymap)
    (L : Layout) : Option (Except Unit SwipeEngine) :=
  (build_key_to_char_point_map km L).map (fun pm => eenv.swipeNew LanguageCode.En pm)

/-- The width column of `key_sizes` for one row (empty when the row is
missing; the missing case never arises on runs that do not panic). -/
def rowWidths (L : Layout) (r : Nat) : List ℚ := L.key_sizes.getD r []

/-- Sum of the widths of the keys preceding column `k` in row `r`: the
specification's claimed x-coordinate. -/
def precedingWidth (L : Layout) (r k : Nat) : ℚ := ((rowWidths L r).take k).sum

/-- The letter recorded for the slot at row `r`, column `k`, when the slot
resolves to a Letter label with a nonempty first label string. -/
def slotLetter (km : Option XkbKeymap) (L : Layout) (ha : Bool) (r k : Nat) :
    Option Char :=
  match L.get_key_data km ha k r with
  | some label =>
    match label.cap_type with
    | KeyCapType.Letter => label.label.head?.bind lowerHead
    | _ => none
  | none => none

/-- Specification-side description of the builder: the letters visited in
row-major order, each paired with the point (sum of the widths of the
preceding keys of its row, its row index).  Compared against the map the
source builds. -/
def visits (km : Option XkbKeymap) (L : Layout) : List (Char × Point) :=
  let ha := (km.map XkbKeymap.has_altgr).getD false
  L.main_layout.enum.flatMap (fun p =>
    p.2.enum.filterMap (fun q =>
      (slotLetter km L ha p.1 q.1).map
        (fun c => (c, ⟨precedingWidth L p.1 q.1, (p.1 : ℚ)⟩))))

/-- Model of the `slotmap::SlotMap` arena (external crate): stable numeric
keys handed out by a counter over an association list of entries. -/
structure SlotMap (α : Type) where
  entries : List (Nat × α)
  nextKey : Nat

/-- Arena lookup by key. -/
def SlotMap.find? {α : Type} (sm : SlotMap α) (k : Nat) : Option α :=
  List.lookup k sm.entries

/-- Arena insertion: returns the new arena and the fresh stable key. -/
def SlotMap.insert {α : Type} (sm : SlotMap α) (a : α) : SlotMap α × Nat :=
  ({ entries := (sm.nextKey, a) :: sm.entries, nextKey := sm.nextKey + 1 },
   sm.nextKey)

/-- Arena update of the entry at an existing key. -/
def SlotMap.set {α : Type} (sm : SlotMap α) (k : Nat) (a : α) : SlotMap α :=
  { sm with entries := sm.entries.map (fun e => if e.1 = k then (k, a) else e) }

/-- Modelled from the spec: the interactive panel built by
`create_keyboard_panel` (`builder.rs` is not under `src/`); the backend
reads and writes only its owned `KeyboardState`, so only that field is
modelled. -/
structure GuiPanel where
  state : KeyboardState

/-- Modelled from the spec: `create_keyboard_panel` (from `builder.rs`, not
under `src/`) builds the interactive panel owning the given state. -/
def create_keyboard_panel (km : Option XkbKeymap) (state : KeyboardState)
    (L : Layout) : GuiPanel := ⟨state⟩

/-- A task enqueued on the host task queue. -/
inductive AppTask where
  | keyboardChanged
deriving DecidableEq

/-- Embedding of `KeyboardBackend` (mod.rs lines 149-157); the compiled
regex `re_fcitx` is embedded as the function `reFcitxCaptures`. -/
structure KeyboardBackend where
  layout_panels : SlotMap GuiPanel
  layout_ids : List (String × Nat)
  active_layout : Nat
  default_state : KeyboardState
  wlx_layout : Layout
  wayland : Bool

/-- Embedding of `KeyboardBackend::add_new_keymap` (mod.rs lines 160-186):
take the default state, rebuild the swipe engine (a load error degrades to
no engine; a builder panic is `none`), build and insert the panel, and
register the layout name when the keymap has one.  Returns the backend and
the fresh panel key. -/
def add_new_keymap (eenv : EngineEnv) (b : KeyboardBackend)
    (km : Option XkbKeymap) : Option (KeyboardBackend × Nat) :=
  let taken := b.default_state.take
  match create_new_swipe_engine eenv km b.wlx_layout with
  | none => none
  | some res =>
    let state1 := { taken.1 with swipe_engine := res.toOption }
    let panel := create_keyboard_panel km state1 b.wlx_layout
    let inserted := b.layout_panels.insert panel
    let lids := match km.bind XkbKeymap.get_name with
      | some nm => (nm, inserted.2) :: b.layout_ids
      | none => b.layout_ids
    some ({ b with default_state := taken.2, layout_panels := inserted.1,
                   layout_ids := lids }, inserted.2)

/-- Embedding of `KeyboardBackend::internal_switch_keymap` (mod.rs lines
212-233): take the leaving panel's state (the residual stays in the leaving
panel), rebuild the swipe engine for the entering keymap, move the taken
state into the panel at `new_key` and make it active.  `none` models the
two `unwrap` panics on missing panel keys and the builder panic. -/
def internal_switch_keymap (eenv : EngineEnv) (b : KeyboardBackend)
    (new_key : Nat) (km : XkbKeymap) : Option KeyboardBackend :=
  match b.layout_panels.find? b.active_layout with
  | none => none
  | some panel =>
    let taken := panel.state.take
    match create_new_swipe_engine eenv (some km) b.wlx_layout with
    | none => none
    | some res =>
      let state_from := { taken.1 with swipe_engine := res.toOption }
      let lp1 := b.layout_panels.set b.active_layout { panel with state := taken.2 }
      match lp1.find? new_key with
      | none => none
      | some p2 =>
        some { b with active_layout := new_key,
                      layout_panels := lp1.set new_key { p2 with state := state_from } }

/-- Embedding of `KeyboardBackend::switch_keymap` (mod.rs lines 188-210):
no-op returning false when auto-labels are disabled, when the keymap has no
layout name, or when the name resolves to the already-active panel;
otherwise hot-swap (creating the panel first when the name is new) and
enqueue the keyboard-changed task. -/
def switch_keymap (eenv : EngineEnv) (b : KeyboardBackend) (km : XkbKeymap) :
    Option (KeyboardBackend × List AppTask × Bool) :=
  if b.wlx_layout.auto_labels.getD true = false then some (b, [], false)
  else
    match km.get_name with
    | none => some (b, [], false)
    | some layout_name =>
      match List.lookup layout_name b.layout_ids with
      | some new_key =>
        if b.active_layout = new_key then some (b, [], false)
        else
          match internal_switch_keymap eenv b new_key km with
          | none => none
          | some b1 => some (b1, [AppTask.keyboardChanged], true)
      | none =>
        match add_new_keymap eenv b (some km) with
        | none => none
        | some r =>
          match internal_switch_keymap eenv r.1 r.2 km with
          | none => none
          | some b2 => some (b2, [AppTask.keyboardChanged], true)

/-- Environment of the keymap resolver: the dbus query for the fcitx input
scheme name, the two system keymap queries, and the external
`XkbKeymap::from_layout_variant` constructor. -/
structure ResolverEnv where
  fcitx_keymap : Except String String
  keymapWl : Except String XkbKeymap
  keymapX11 : Except String XkbKeymap
  from_layout_variant : String → String → Except String XkbKeymap

/-- The literal prefix `keyboard-` of the fcitx pattern: returns the
remaining characters when the name starts with it. -/
def dropKeyboardDash : List Char → Option (List Char)
  | 'k' :: 'e' :: 'y' :: 'b' :: 'o' :: 'a' :: 'r' :: 'd' :: '-' :: rest =>
    some rest
  | _ => none

/-- Split a character list on the dash separator (groups may be empty). -/
def splitDash : List Char → List (List Char)
  | [] => [[]]
  | '-' :: rest => [] :: splitDash rest
  | c :: rest =>
    match splitDash rest with
    | [] => [[c]]
    | g :: gs => (c :: g) :: gs

/-- Embedding of the compiled regex
`^keyboard-([^-]+)(?:-([^-]+))?$` (mod.rs line 84): the captured layout and
optional variant, or `none` when the name does not match.  After the
literal prefix, the remainder must consist of one or two nonempty
dash-free groups. -/
def reFcitxCaptures (s : String) : Option (String × Option String) :=
  match dropKeyboardDash s.data with
  | none => none
  | some rest =>
    match splitDash rest with
    | [l] => if l = [] then none else some (⟨l⟩, none)
    | [l, v] => if l = [] ∨ v = [] then none else some (⟨l⟩, some ⟨v⟩)
    | _ => none

/-- Embedding of `KeyboardBackend::get_effective_keymap` (mod.rs lines
235-264): a failed fcitx query falls back to the system keymap for the
display protocol; a name matching the keyboard pattern builds the keymap
from the captured layout and variant; a known IME alias or any other
unmatched name falls back to the system keymap. -/
def get_effective_keymap (renv : ResolverEnv) (wayland : Bool) :
    Except String XkbKeymap :=
  let get_system_keymap := fun (w : Bool) =>
    if w then renv.keymapWl else renv.keymapX11
  match renv.fcitx_keymap with
  | Except.error _ => get_system_keymap wayland
  | Except.ok fcitx_layout =>
    match reFcitxCaptures fcitx_layout with
    | some caps => renv.from_layout_variant caps.1 (caps.2.getD "")
    | none =>
      if SYSTEM_LAYOUT_ALIASES.contains fcitx_layout then
        get_system_keymap wayland
      else
        get_system_keymap wayland

/-! Helper lemmas about the modifier bitmask. -/

theorem or_and_self (x m : ℕ) : (x ||| m) &&& m = m := by
  apply Nat.eq_of_testBit_eq
  intro i
  simp only [Nat.testBit_and, Nat.testBit_or]
  cases x.testBit i <;> cases m.testBit i <;> rfl

theorem modNot_and_self (m : ℕ) (hm : m < 65536) : modNot m &&& m = 0 := by
  apply Nat.eq_of_testBit_eq
  intro i
  simp only [Nat.testBit_and, modNot, Nat.testBit_xor, Nat.zero_testBit]
  have h65535 : (65535 : ℕ) = 2 ^ 16 - 1 := by norm_num
  rw [h65535, Nat.testBit_two_pow_sub_one]
  by_cases hi : i < 16
  · rw [decide_eq_true hi]
    cases m.testBit i <;> rfl
  · have hbit : m.testBit i = false := by
      apply Nat.testBit_lt_two_pow
      calc m < 65536 := hm
        _ = 2 ^ 16 := by norm_num
        _ ≤ 2 ^ i := Nat.pow_le_pow_right (by norm_num) (by omega)
    simp [hbit]

theorem autoReleaseStep_clears (x b : ℕ) (hb : modNot b &&& b = 0) :
    autoReleaseStep x b &&& b = 0 := by
  unfold autoReleaseStep
  split
  · rw [Nat.and_assoc, hb, Nat.and_zero]
  · next h => exact not_ne_iff.mp h

theorem autoReleaseStep_preserves (x b t : ℕ) (h : x &&& t = 0) :
    autoReleaseStep x b &&& t = 0 := by
  unfold autoReleaseStep
  split
  · rw [Nat.and_assoc, Nat.and_comm (modNot b) t, ← Nat.and_assoc, h, Nat.zero_and]
  · exact h

theorem autoRelease_clears (m : ℕ) :
    autoRelease m &&& SHIFT = 0 ∧ autoRelease m &&& CTRL = 0 ∧
    autoRelease m &&& ALT = 0 ∧ autoRelease m &&& SUPER = 0 ∧
    autoRelease m &&& META = 0 := by
  have hS : modNot SHIFT &&& SHIFT = 0 := by decide
  have hC : modNot CTRL &&& CTRL = 0 := by decide
  have hA : modNot ALT &&& ALT = 0 := by decide
  have hU : modNot SUPER &&& SUPER = 0 := by decide
  have hM : modNot META &&& META = 0 := by decide
  unfold autoRelease AUTO_RELEASE_MODS
  simp only [List.foldl_cons, List.foldl_nil]
  refine ⟨?_, ?_, ?_, ?_, ?_⟩
  · exact autoReleaseStep_preserves _ _ _ (autoReleaseStep_preserves _ _ _
      (autoReleaseStep_preserves _ _ _ (autoReleaseStep_preserves _ _ _
        (autoReleaseStep_clears _ _ hS))))
  · exact autoReleaseStep_preserves _ _ _ (autoReleaseStep_preserves _ _ _
      (autoReleaseStep_preserves _ _ _ (autoReleaseStep_clears _ _ hC)))
  · exact autoReleaseStep_preserves _ _ _ (autoReleaseStep_preserves _ _ _
      (autoReleaseStep_clears _ _ hA))
  · exact autoReleaseStep_preserves _ _ _ (autoReleaseStep_clears _ _ hU)
  · exact autoReleaseStep_clears _ _ hM

/-! Concrete fixtures used by witnesses and counterexamples. -/

/-- A concrete prediction engine whose candidate list is always empty. -/
def engineNone : SwipeEngine := ⟨fun _ _ _ => []⟩

/-- A concrete prediction engine that always ranks "hello" first. -/
def engineHello : SwipeEngine := ⟨fun _ _ _ => [⟨"hello", 10⟩, ⟨"hey", 5⟩]⟩

/-- A concrete environment with a Wayland display and no spawnable
processes. -/
def env0 : Env := ⟨some "wayland-1", fun _ _ => none⟩

/-- A concrete baseline keyboard state. -/
def kbBase : KeyboardState :=
  { modifiers := 0
    alt_modifier := SHIFT
    processes := []
    overlay_list := default
    set_list := default
    clock_12h := false
    swipe_engine := none
    current_swipe_input := ""
    last_pressed_key_label := ""
    is_swiping := false
    clipboard := Clipboard.new
    last_swiped_word := none }

/-- C4 counterexample: the claim says the five auto-release modifiers are
cleared after a touch-up on ANY ordinary Key, for every prior mask.  But
when a swipe engine is present and the key's cap-type is Letter, the
release takes the swipe branch: here a simple tap with SHIFT held leaves
SHIFT set in the mask (the branch never touches the modifiers). -/
theorem C4_counterexample :
    (handle_release env0 (KeyButtonData.Key ⟨30⟩ false) KeyCapType.Letter
        { kbBase with swipe_engine := some engineNone, modifiers := SHIFT }).map
      (fun r => r.2.1.modifiers &&& SHIFT) = some SHIFT ∧ SHIFT ≠ 0 := by
  constructor
  · rfl
  · decide

/-- C4 (amended): for every prior modifier-mask value, after a touch-up on
an ordinary Key handled outside the swipe path (no swipe engine, or the
key's cap-type is not Letter), all five auto-release modifiers SHIFT, CTRL,
ALT, SUPER and META are cleared from the held-modifier mask, and the
updated mask is routed after the key-up event. -/
theorem C4_auto_release_nonswipe (env : Env) (vk : VirtualKey) (pr : Bool)
    (cap : KeyCapType) (kb : KeyboardState)
    (h : kb.swipe_engine = none ∨ cap ≠ KeyCapType.Letter) :
    handle_release env (KeyButtonData.Key vk pr) cap kb =
      some (KeyButtonData.Key vk false,
        { kb with modifiers := autoRelease kb.modifiers },
        [Effect.sendKey vk false, Effect.setModifiers (autoRelease kb.modifiers)],
        true) ∧
    autoRelease kb.modifiers &&& SHIFT = 0 ∧
    autoRelease kb.modifiers &&& CTRL = 0 ∧
    autoRelease kb.modifiers &&& ALT = 0 ∧
    autoRelease kb.modifiers &&& SUPER = 0 ∧
    autoRelease kb.modifiers &&& META = 0 := by
  refine ⟨?_, autoRelease_clears kb.modifiers⟩
  rcases h with h | h
  · simp [handle_release, h]
  · cases heng : kb.swipe_engine with
    | none => simp [handle_release, heng]
    | some eng => simp [handle_release, heng, h]

/-- C4 witness: the amended theorem applied to a concrete release with all
of SHIFT, CTRL, ALT, SUPER, META (mask 31) held beforehand. -/
theorem C4_auto_release_nonswipe_witness :
    handle_release env0 (KeyButtonData.Key ⟨30⟩ true) KeyCapType.Other
        { kbBase with modifiers := 31 } =
      some (KeyButtonData.Key ⟨30⟩ false,
        { kbBase with modifiers := autoRelease 31 },
        [Effect.sendKey ⟨30⟩ false, Effect.setModifiers (autoRelease 31)],
        true) ∧
    autoRelease 31 &&& SHIFT = 0 ∧
    autoRelease 31 &&& CTRL = 0 ∧
    autoRelease 31 &&& ALT = 0 ∧
    autoRelease 31 &&& SUPER = 0 ∧
    autoRelease 31 &&& META = 0 :=
  C4_auto_release_nonswipe env0 ⟨30⟩ true KeyCapType.Other
    { kbBase with modifiers := 31 } (Or.inl rfl)

/-- C8: with a swipe engine present, releasing a Letter key while the
swiping flag is still false emits a synthetic immediate key-down followed
by key-up for the key's virtual code (plus the key-click feedback), and the
routed effects contain no invocation of the prediction component. -/
theorem C8_tap_emits_down_up (env : Env) (vk : VirtualKey) (pr : Bool)
    (kb : KeyboardState) (eng : SwipeEngine)
    (heng : kb.swipe_engine = some eng) (hsw : kb.is_swiping = false) :
    handle_release env (KeyButtonData.Key vk pr) KeyCapType.Letter kb =
      some (KeyButtonData.Key vk true, kb,
        [Effect.sendKey vk true, Effect.sendKey vk false, Effect.playSound],
        true) ∧
    ∀ path ctx topN, Effect.predictCall path ctx topN ∉
      [Effect.sendKey vk true, Effect.sendKey vk false, Effect.playSound] := by
  constructor
  · simp [handle_release, heng, hsw]
  · intro path ctx topN
    simp

/-- C8 witness: a concrete tap on "h" with the engine present. -/
theorem C8_tap_emits_down_up_witness :
    handle_release env0 (KeyButtonData.Key ⟨43⟩ false) KeyCapType.Letter
        { kbBase with swipe_engine := some engineHello } =
      some (KeyButtonData.Key ⟨43⟩ true,
        { kbBase with swipe_engine := some engineHello },
        [Effect.sendKey ⟨43⟩ true, Effect.sendKey ⟨43⟩ false, Effect.playSound],
        true) ∧
    ∀ path ctx topN, Effect.predictCall path ctx topN ∉
      [Effect.sendKey ⟨43⟩ true, Effect.sendKey ⟨43⟩ false, Effect.playSound] :=
  C8_tap_emits_down_up env0 ⟨43⟩ false
    { kbBase with swipe_engine := some engineHello } engineHello rfl rfl

/-- C10: the swipe-completion branch of touch-up is not total: with a swipe
engine present, the swiping flag set and a non-empty buffer, the release
aborts (modelled by `none`) exactly when the prediction candidate list is
empty, or the WAYLAND_DISPLAY environment variable is unset, or the
clipboard write fails; it completes without panicking in all other cases. -/
theorem C10_swipe_release_panics (env : Env) (vk : VirtualKey) (pr : Bool)
    (kb : KeyboardState) (eng : SwipeEngine)
    (heng : kb.swipe_engine = some eng) (hsw : kb.is_swiping = true)
    (hne : kb.current_swipe_input ≠ "") :
    handle_release env (KeyButtonData.Key vk pr) KeyCapType.Letter kb = none ↔
      (eng.predict kb.current_swipe_input kb.last_swiped_word 5 = [] ∨
       env.waylandDisplay = none ∨ kb.clipboard.ok = false) := by
  simp only [handle_release, heng, hsw, hne, if_true, ne_eq,
    not_false_eq_true, reduceIte]
  cases hp : (eng.predict kb.current_swipe_input kb.last_swiped_word 5).head? with
  | none =>
    simp only [hp]
    simp [List.head?_eq_none_iff.mp hp]
  | some best =>
    have hpe : eng.predict kb.current_swipe_input kb.last_swiped_word 5 ≠ [] := by
      intro hc
      rw [hc] at hp
      exact Option.noConfusion hp
    simp only [hp, copy_text_to_primary_clipboard]
    cases hw : env.waylandDisplay with
    | none => simp [hpe]
    | some d =>
      cases hok : kb.clipboard.ok with
      | false => simp [hpe, hok]
      | true => simp [hpe, hok]

/-- C10 witness: with a concrete engine that returns no candidates, the
swipe-completion release aborts. -/
theorem C10_swipe_release_panics_witness :
    handle_release env0 (KeyButtonData.Key ⟨43⟩ false) KeyCapType.Letter
        { kbBase with swipe_engine := some engineNone, is_swiping := true,
                      current_swipe_input := "hey" } = none ↔
      (engineNone.predict "hey" none 5 = [] ∨
       env0.waylandDisplay = none ∨
       (Clipboard.new).ok = false) :=
  C10_swipe_release_panics env0 ⟨43⟩ false
    { kbBase with swipe_engine := some engineNone, is_swiping := true,
                  current_swipe_input := "hey" }
    engineNone rfl rfl (by decide)

/-- C3: modifier-key semantics.  On touch-down the sticky flag becomes true
iff the bit was not already held, the bit is OR-ed into the mask and the
mask is routed.  On touch-up a sticky key is a no-op returning "not
consumed" with the bit kept; a non-sticky key clears the bit, routes the
mask and returns "consumed".  Consequently, starting with the bit unset,
the first press marks sticky so its touch-up keeps the bit; only the
second press (bit already set, so sticky becomes false) lets its touch-up
clear the bit. -/
theorem C3_modifier_sticky (env : Env) (m : KeyModifier) (st : Bool)
    (cap : KeyCapType) (lbl : List String) (btn : MouseButtonIndex)
    (kb : KeyboardState) (hm16 : m < 65536) :
    handle_press env (KeyButtonData.Modifier m st) cap lbl kb btn =
      some (KeyButtonData.Modifier m (kb.modifiers &&& m == 0),
        { kb with is_swiping := false, modifiers := kb.modifiers ||| m },
        [Effect.setModifiers (kb.modifiers ||| m), Effect.playSound]) ∧
    handle_release env (KeyButtonData.Modifier m true) cap kb =
      some (KeyButtonData.Modifier m true, kb, [], false) ∧
    (handle_release env (KeyButtonData.Modifier m false) cap kb =
      some (KeyButtonData.Modifier m false,
        { kb with modifiers := kb.modifiers &&& modNot m },
        [Effect.setModifiers (kb.modifiers &&& modNot m)], true) ∧
      (kb.modifiers &&& modNot m) &&& m = 0) ∧
    (kb.modifiers &&& m = 0 → m ≠ 0 →
      (kb.modifiers &&& m == 0) = true ∧
      ({ kb with is_swiping := false, modifiers := kb.modifiers ||| m } :
          KeyboardState).modifiers &&& m ≠ 0 ∧
      ((kb.modifiers ||| m) &&& m == 0) = false ∧
      ((kb.modifiers ||| m) &&& modNot m) &&& m = 0) := by
  have hclr : ∀ x : ℕ, (x &&& modNot m) &&& m = 0 := by
    intro x
    rw [Nat.and_assoc, modNot_and_self m hm16, Nat.and_zero]
  refine ⟨?_, ?_, ⟨?_, hclr kb.modifiers⟩, ?_⟩
  · simp [handle_press]
  · simp [handle_release]
  · simp [handle_release]
  · intro h0 hm
    have hset : (kb.modifiers ||| m) &&& m = m := or_and_self kb.modifiers m
    refine ⟨by simp [h0], ?_, ?_, hclr (kb.modifiers ||| m)⟩
    · simpa [hset] using hm
    · simp [hset, hm]

/-- C3 witness: the theorem applied to the CTRL bit on a keyboard state
that does not hold it, walking the press, sticky no-op release, second
press and clearing release. -/
theorem C3_modifier_sticky_witness :
    handle_press env0 (KeyButtonData.Modifier CTRL false) KeyCapType.Other []
        kbBase MouseButtonIndex.Left =
      some (KeyButtonData.Modifier CTRL (kbBase.modifiers &&& CTRL == 0),
        { kbBase with is_swiping := false,
                      modifiers := kbBase.modifiers ||| CTRL },
        [Effect.setModifiers (kbBase.modifiers ||| CTRL), Effect.playSound]) ∧
    handle_release env0 (KeyButtonData.Modifier CTRL true) KeyCapType.Other
        kbBase =
      some (KeyButtonData.Modifier CTRL true, kbBase, [], false) ∧
    (handle_release env0 (KeyButtonData.Modifier CTRL false) KeyCapType.Other
        kbBase =
      some (KeyButtonData.Modifier CTRL false,
        { kbBase with modifiers := kbBase.modifiers &&& modNot CTRL },
        [Effect.setModifiers (kbBase.modifiers &&& modNot CTRL)], true) ∧
      (kbBase.modifiers &&& modNot CTRL) &&& CTRL = 0) ∧
    ((kbBase.modifiers &&& CTRL == 0) = true ∧
      ({ kbBase with is_swiping := false,
                     modifiers := kbBase.modifiers ||| CTRL } :
          KeyboardState).modifiers &&& CTRL ≠ 0 ∧
      ((kbBase.modifiers ||| CTRL) &&& CTRL == 0) = false ∧
      ((kbBase.modifiers ||| CTRL) &&& modNot CTRL) &&& CTRL = 0) := by
  have h := C3_modifier_sticky env0 CTRL false KeyCapType.Other []
    MouseButtonIndex.Left kbBase (by decide)
  exact ⟨h.1, h.2.1, h.2.2.1, h.2.2.2 (by decide) (by decide)⟩

/-- C1: the swipe scenario.  With a swipe engine present, pressing letter
"h" seeds the buffer to "h" and records "h" as last-pressed without setting
the swiping flag; entering "e" (differing from "h") sets the flag and makes
the buffer "he"; entering "y" makes it "hey"; on touch-up the prediction
component is invoked with path "hey", the previous predicted word as
context and top-5, the buffer is cleared, the clipboard receives the
first-ranked word plus a trailing space, and that word becomes the context
for the next prediction. -/
theorem C1_swipe_scenario (env : Env) (vk : VirtualKey) (pr : Bool)
    (btn : MouseButtonIndex) (kb : KeyboardState) (eng : SwipeEngine)
    (best : Prediction) (rest : List Prediction) (disp : String)
    (heng : kb.swipe_engine = some eng)
    (hpred : eng.predict "hey" kb.last_swiped_word 5 = best :: rest)
    (hwl : env.waylandDisplay = some disp)
    (hok : kb.clipboard.ok = true) :
    handle_press env (KeyButtonData.Key vk pr) KeyCapType.Letter ["h"] kb btn =
      some (KeyButtonData.Key vk pr,
        { kb with is_swiping := false, last_pressed_key_label := "h",
                  current_swipe_input := "h" }, []) ∧
    handle_enter (KeyButtonData.Key vk pr) ["e"] KeyCapType.Letter
        { kb with is_swiping := false, last_pressed_key_label := "h",
                  current_swipe_input := "h" } =
      some { kb with is_swiping := true, last_pressed_key_label := "h",
                     current_swipe_input := "he" } ∧
    handle_enter (KeyButtonData.Key vk pr) ["y"] KeyCapType.Letter
        { kb with is_swiping := true, last_pressed_key_label := "h",
                  current_swipe_input := "he" } =
      some { kb with is_swiping := true, last_pressed_key_label := "h",
                     current_swipe_input := "hey" } ∧
    handle_release env (KeyButtonData.Key vk pr) KeyCapType.Letter
        { kb with is_swiping := true, last_pressed_key_label := "h",
                  current_swipe_input := "hey" } =
      some (KeyButtonData.Key vk pr,
        { kb with is_swiping := true, last_pressed_key_label := "h",
                  current_swipe_input := "",
                  clipboard := { kb.clipboard with
                    contents := some (best.word ++ " ") },
                  last_swiped_word := some best.word },
        [Effect.predictCall "hey" kb.last_swiped_word 5,
         Effect.setModifiers SHIFT,
         Effect.sendKey VirtualKey.Insert true,
         Effect.sendKey VirtualKey.Insert false,
         Effect.setModifiers kb.modifiers],
        true) := by
  have hlow_h : asciiLower "h" = "h" := by decide
  have hlow_e : asciiLower "e" = "e" := by decide
  have hlow_y : asciiLower "y" = "y" := by decide
  refine ⟨?_, ?_, ?_, ?_⟩
  · simp [handle_press, heng, hlow_h]
  · simp [handle_enter, heng, hlow_e]
  · simp [handle_enter, heng, hlow_y]
  · simp [handle_release, heng, hpred, copy_text_to_primary_clipboard,
      hwl, hok]

/-- A concrete keyboard state with the "hello"-first prediction engine,
used by the C1 witness. -/
def kbC1 : KeyboardState := { kbBase with swipe_engine := some engineHello }

/-- C1 witness: the swipe scenario run concretely with the "hello"-first
engine, a present Wayland display and a working clipboard. -/
theorem C1_swipe_scenario_witness :
    handle_press env0 (KeyButtonData.Key ⟨43⟩ false) KeyCapType.Letter ["h"]
        kbC1 MouseButtonIndex.Left =
      some (KeyButtonData.Key ⟨43⟩ false,
        { kbC1 with is_swiping := false, last_pressed_key_label := "h",
                    current_swipe_input := "h" }, []) ∧
    handle_enter (KeyButtonData.Key ⟨43⟩ false) ["e"] KeyCapType.Letter
        { kbC1 with is_swiping := false, last_pressed_key_label := "h",
                    current_swipe_input := "h" } =
      some { kbC1 with is_swiping := true, last_pressed_key_label := "h",
                       current_swipe_input := "he" } ∧
    handle_enter (KeyButtonData.Key ⟨43⟩ false) ["y"] KeyCapType.Letter
        { kbC1 with is_swiping := true, last_pressed_key_label := "h",
                    current_swipe_input := "he" } =
      some { kbC1 with is_swiping := true, last_pressed_key_label := "h",
                       current_swipe_input := "hey" } ∧
    handle_release env0 (KeyButtonData.Key ⟨43⟩ false) KeyCapType.Letter
        { kbC1 with is_swiping := true, last_pressed_key_label := "h",
                    current_swipe_input := "hey" } =
      some (KeyButtonData.Key ⟨43⟩ false,
        { kbC1 with is_swiping := true, last_pressed_key_label := "h",
                    current_swipe_input := "",
                    clipboard := { kbC1.clipboard with
                      contents := some ("hello" ++ " ") },
                    last_swiped_word := some "hello" },
        [Effect.predictCall "hey" none 5,
         Effect.setModifiers SHIFT,
         Effect.sendKey VirtualKey.Insert true,
         Effect.sendKey VirtualKey.Insert false,
         Effect.setModifiers 0],
        true) :=
  C1_swipe_scenario env0 ⟨43⟩ false MouseButtonIndex.Left kbC1 engineHello
    ⟨"hello", 10⟩ [⟨"hey", 5⟩] "wayland-1" rfl rfl rfl rfl

/-- C9: keymap resolution order.  A failed fcitx query falls back
(non-fatally) to the system keymap chosen by display protocol; a scheme
name matching `keyboard-<layout>(-<variant>)?` builds the keymap from the
captured layout and variant; a name in the known non-keyboard IME list, or
one matching neither the pattern nor that list, falls back to the system
keymap. -/
theorem C9_keymap_resolution (renv : ResolverEnv) (wayland : Bool) :
    (∀ e, renv.fcitx_keymap = Except.error e →
      get_effective_keymap renv wayland =
        (if wayland then renv.keymapWl else renv.keymapX11)) ∧
    (∀ s caps, renv.fcitx_keymap = Except.ok s → reFcitxCaptures s = some caps →
      get_effective_keymap renv wayland =
        renv.from_layout_variant caps.1 (caps.2.getD "")) ∧
    (∀ s, renv.fcitx_keymap = Except.ok s → reFcitxCaptures s = none →
      s ∈ SYSTEM_LAYOUT_ALIASES →
      get_effective_keymap renv wayland =
        (if wayland then renv.keymapWl else renv.keymapX11)) ∧
    (∀ s, renv.fcitx_keymap = Except.ok s → reFcitxCaptures s = none →
      s ∉ SYSTEM_LAYOUT_ALIASES →
      get_effective_keymap renv wayland =
        (if wayland then renv.keymapWl else renv.keymapX11)) := by
  refine ⟨?_, ?_, ?_, ?_⟩
  · intro e he
    simp [get_effective_keymap, he]
  · intro s caps hs hcaps
    simp [get_effective_keymap, hs, hcaps]
  · intro s hs hcaps _
    simp [get_effective_keymap, hs, hcaps]
  · intro s hs hcaps _
    simp [get_effective_keymap, hs, hcaps]

/-- A concrete resolver environment whose fcitx query reports the scheme
name `keyboard-us-intl`, used by the C9 witness. -/
def renv0 : ResolverEnv :=
  { fcitx_keymap := Except.ok "keyboard-us-intl"
    keymapWl := Except.ok ⟨some "wl", "", false⟩
    keymapX11 := Except.ok ⟨some "x11", "", false⟩
    from_layout_variant := fun l v => Except.ok ⟨some l, v, false⟩ }

/-- C9 witness: the pattern branch applied concretely: the scheme name
`keyboard-us-intl` resolves through the captured layout "us" and variant
"intl". -/
theorem C9_keymap_resolution_witness :
    get_effective_keymap renv0 true =
      renv0.from_layout_variant ("us", some "intl").1
        (("us", some "intl").2.getD "") :=
  (C9_keymap_resolution renv0 true).2.1 "keyboard-us-intl" ("us", some "intl")
    rfl (by decide)

/-! Helper lemmas for the panel arena and the hot-swap path. -/

theorem lookup_map_replace {α : Type} (l : List (Nat × α)) (k : Nat) (a : α)
    (h : (List.lookup k l).isSome) :
    List.lookup k (l.map (fun e => if e.1 = k then (k, a) else e)) = some a := by
  induction l with
  | nil => simp [List.lookup] at h
  | cons e rest ih =>
    obtain ⟨k1, v1⟩ := e
    simp only [List.map_cons]
    by_cases hek : k1 = k
    · subst hek
      rw [if_pos rfl]
      simp [List.lookup]
    · rw [if_neg hek]
      have hne : (k == k1) = false := by
        simp [Ne.symm hek]
      simp only [List.lookup, hne] at h ⊢
      exact ih h

theorem SlotMap.find?_set_self {α : Type} (sm : SlotMap α) (k : Nat) (a : α)
    (h : (sm.find? k).isSome) : (sm.set k a).find? k = some a :=
  lookup_map_replace sm.entries k a h

/-- C6: across a panel hot-swap, exactly the four fields `modifiers`,
`alt_modifier`, `processes` and `clock_12h` of the leaving panel's state
are carried into the entering panel's state; every other field is a fresh
default (no engine until rebuilt, empty buffer and label, swiping off,
fresh GUI lists and clipboard, no remembered word), with the swipe engine
replaced by the result of rebuilding it for the entering keymap. -/
theorem C6_hot_swap_persists_four_fields (eenv : EngineEnv)
    (b : KeyboardBackend) (new_key : Nat) (km : XkbKeymap) (pOld : GuiPanel)
    (b' : KeyboardBackend) (res : Except Unit SwipeEngine)
    (hold : b.layout_panels.find? b.active_layout = some pOld)
    (hres : create_new_swipe_engine eenv (some km) b.wlx_layout = some res)
    (hsw : internal_switch_keymap eenv b new_key km = some b') :
    b'.active_layout = new_key ∧
    b'.layout_panels.find? new_key =
      some ⟨{ modifiers := pOld.state.modifiers
              alt_modifier := pOld.state.alt_modifier
              processes := pOld.state.processes
              overlay_list := default
              set_list := default
              clock_12h := pOld.state.clock_12h
              swipe_engine := res.toOption
              current_swipe_input := ""
              last_pressed_key_label := ""
              is_swiping := false
              clipboard := Clipboard.new
              last_swiped_word := none }⟩ := by
  unfold internal_switch_keymap at hsw
  rw [hold, hres] at hsw
  simp only at hsw
  cases hf : (b.layout_panels.set b.active_layout
      { pOld with state := (pOld.state.take).2 }).find? new_key with
  | none => rw [hf] at hsw; exact Option.noConfusion hsw
  | some p2 =>
    rw [hf] at hsw
    simp only [Option.some.injEq] at hsw
    subst hsw
    constructor
    · rfl
    · have hs : ((b.layout_panels.set b.active_layout
          { pOld with state := (pOld.state.take).2 }).find? new_key).isSome := by
        rw [hf]; rfl
      exact SlotMap.find?_set_self _ new_key _ hs

/-- A trivial concrete layout: no rows, auto-labels on. -/
def L0trivial : Layout :=
  { main_layout := []
    key_sizes := []
    row_height := 1
    auto_labels := some true
    get_key_data := fun _ _ _ _ => none }

/-- A concrete engine environment whose constructor always fails to load. -/
def eenvErr : EngineEnv := ⟨fun _ _ => Except.error ()⟩

/-- A concrete keyboard state holding modifiers 3, one live process and the
12-hour clock; also exactly what the hot-swap should carry over. -/
def stateC6 : KeyboardState :=
  { kbBase with modifiers := 3, processes := [⟨7, false⟩], clock_12h := true }

/-- A concrete panel owning `stateC6`. -/
def panel0 : GuiPanel := ⟨stateC6⟩

/-- A concrete backend with `panel0` active under the layout name "us". -/
def bC6 : KeyboardBackend :=
  { layout_panels := ⟨[(0, panel0)], 1⟩
    layout_ids := [("us", 0)]
    active_layout := 0
    default_state := kbBase
    wlx_layout := L0trivial
    wayland := true }

/-- The backend after hot-swapping `bC6` onto panel key 0 for a "de"
keymap. -/
def bC6' : KeyboardBackend :=
  { bC6 with
    active_layout := 0
    layout_panels := ⟨[(0, ⟨stateC6⟩)], 1⟩ }

/-- C6 witness: the hot-swap run concretely; the entering panel's state
carries modifiers 3, the process list and the clock flag, with everything
else fresh and no engine (the concrete constructor fails to load). -/
theorem C6_hot_swap_persists_four_fields_witness :
    bC6'.active_layout = 0 ∧
    bC6'.layout_panels.find? 0 =
      some ⟨{ modifiers := panel0.state.modifiers
              alt_modifier := panel0.state.alt_modifier
              processes := panel0.state.processes
              overlay_list := default
              set_list := default
              clock_12h := panel0.state.clock_12h
              swipe_engine := (Except.error () : Except Unit SwipeEngine).toOption
              current_swipe_input := ""
              last_pressed_key_label := ""
              is_swiping := false
              clipboard := Clipboard.new
              last_swiped_word := none }⟩ :=
  C6_hot_swap_persists_four_fields eenvErr bC6 0 ⟨some "de", "", false⟩ panel0
    bC6' (Except.error ()) rfl rfl (by rfl)

theorem internal_switch_keymap_fields (eenv : EngineEnv)
    (b : KeyboardBackend) (nk : Nat) (km : XkbKeymap) (b' : KeyboardBackend)
    (h : internal_switch_keymap eenv b nk km = some b') :
    b'.layout_ids = b.layout_ids ∧ b'.wlx_layout = b.wlx_layout ∧
    b'.active_layout = nk := by
  unfold internal_switch_keymap at h
  cases h1 : b.layout_panels.find? b.active_layout with
  | none => rw [h1] at h; exact Option.noConfusion h
  | some panel =>
    rw [h1] at h
    cases h2 : create_new_swipe_engine eenv (some km) b.wlx_layout with
    | none => rw [h2] at h; exact Option.noConfusion h
    | some res =>
      rw [h2] at h
      simp only at h
      cases h3 : (b.layout_panels.set b.active_layout
          { panel with state := (panel.state.take).2 }).find? nk with
      | none => rw [h3] at h; exact Option.noConfusion h
      | some p2 =>
        rw [h3] at h
        simp only [Option.some.injEq] at h
        subst h
        exact ⟨rfl, rfl, rfl⟩

theorem add_new_keymap_fields (eenv : EngineEnv) (b : KeyboardBackend)
    (km2 : Option XkbKeymap) (bA : KeyboardBackend) (id : Nat) (nm : String)
    (h : add_new_keymap eenv b km2 = some (bA, id))
    (hnm : km2.bind XkbKeymap.get_name = some nm) :
    bA.wlx_layout = b.wlx_layout ∧ bA.active_layout = b.active_layout ∧
    bA.layout_ids = (nm, id) :: b.layout_ids := by
  unfold add_new_keymap at h
  cases h2 : create_new_swipe_engine eenv km2 b.wlx_layout with
  | none => rw [h2] at h; exact Option.noConfusion h
  | some res =>
    rw [h2] at h
    simp only [hnm, Option.some.injEq, Prod.mk.injEq] at h
    obtain ⟨hA, hid⟩ := h
    subst hA
    subst hid
    exact ⟨rfl, rfl, rfl⟩

/-- C5: `switch_keymap` is guarded and idempotent.  It returns false with a
completely unchanged backend (no panel built or swapped, nothing enqueued)
when auto-layout-labelling is disabled in the layout configuration, or when
the keymap's layout name resolves to the panel that is already active; and
whatever a first call did, an immediately repeated call with the same
keymap returns false and changes nothing. -/
theorem C5_switch_guarded_idempotent (eenv : EngineEnv)
    (b b1 : KeyboardBackend) (km : XkbKeymap) (fx : List AppTask) (r : Bool) :
    (b.wlx_layout.auto_labels = some false →
      switch_keymap eenv b km = some (b, [], false)) ∧
    (∀ nm, km.get_name = some nm →
      List.lookup nm b.layout_ids = some b.active_layout →
      switch_keymap eenv b km = some (b, [], false)) ∧
    (switch_keymap eenv b km = some (b1, fx, r) →
      switch_keymap eenv b1 km = some (b1, [], false)) := by
  refine ⟨?_, ?_, ?_⟩
  · intro h
    simp [switch_keymap, h]
  · intro nm hnm hlk
    by_cases hauto : b.wlx_layout.auto_labels.getD true = false
    · simp [switch_keymap, hauto]
    · simp [switch_keymap, hauto, hnm, hlk]
  · intro h
    unfold switch_keymap at h
    by_cases hauto : b.wlx_layout.auto_labels.getD true = false
    · rw [if_pos hauto] at h
      simp only [Option.some.injEq, Prod.mk.injEq] at h
      obtain ⟨hb, -, -⟩ := h
      subst hb
      simp [switch_keymap, hauto]
    · rw [if_neg hauto] at h
      cases hnm : km.get_name with
      | none =>
        rw [hnm] at h
        simp only [Option.some.injEq, Prod.mk.injEq] at h
        obtain ⟨hb, -, -⟩ := h
        subst hb
        simp [switch_keymap, hauto, hnm]
      | some nm =>
        rw [hnm] at h
        simp only at h
        cases hlk : List.lookup nm b.layout_ids with
        | some k =>
          rw [hlk] at h
          simp only at h
          by_cases hak : b.active_layout = k
          · rw [if_pos hak] at h
            simp only [Option.some.injEq, Prod.mk.injEq] at h
            obtain ⟨hb, -, -⟩ := h
            subst hb
            simp [switch_keymap, hauto, hnm, hlk, hak]
          · rw [if_neg hak] at h
            cases his : internal_switch_keymap eenv b k km with
            | none => rw [his] at h; exact Option.noConfusion h
            | some bi =>
              rw [his] at h
              simp only [Option.some.injEq, Prod.mk.injEq] at h
              obtain ⟨hb, -, -⟩ := h
              subst hb
              obtain ⟨hids, hwlx, hact⟩ :=
                internal_switch_keymap_fields eenv b k km bi his
              have hauto2 : ¬ bi.wlx_layout.auto_labels.getD true = false := by
                rw [hwlx]; exact hauto
              unfold switch_keymap
              rw [if_neg hauto2, hnm]
              simp only
              rw [hids, hlk]
              simp only
              rw [if_pos hact]
        | none =>
          rw [hlk] at h
          simp only at h
          cases han : add_new_keymap eenv b (some km) with
          | none => rw [han] at h; exact Option.noConfusion h
          | some pr2 =>
            rw [han] at h
            obtain ⟨bA, id⟩ := pr2
            simp only at h
            cases his : internal_switch_keymap eenv bA id km with
            | none => rw [his] at h; exact Option.noConfusion h
            | some bi =>
              rw [his] at h
              simp only [Option.some.injEq, Prod.mk.injEq] at h
              obtain ⟨hb, -, -⟩ := h
              subst hb
              obtain ⟨hAwlx, hAact, hAids⟩ :=
                add_new_keymap_fields eenv b (some km) bA id nm han
                  (by simp [hnm])
              obtain ⟨hids, hwlx, hact⟩ :=
                internal_switch_keymap_fields eenv bA id km bi his
              rw [hAwlx] at hwlx
              rw [hAids] at hids
              have hauto2 : ¬ bi.wlx_layout.auto_labels.getD true = false := by
                rw [hwlx]; exact hauto
              have hlk2 : List.lookup nm ((nm, id) :: b.layout_ids) = some id := by
                simp [List.lookup]
              unfold switch_keymap
              rw [if_neg hauto2, hnm]
              simp only
              rw [hids, hlk2]
              simp only
              rw [if_pos hact]

/-- A concrete backend with auto-labels disabled and the name "us" mapped to
the active panel. -/
def bC5 : KeyboardBackend :=
  { bC6 with wlx_layout := { L0trivial with auto_labels := some false } }

/-- C5 witness: on a concrete backend, the disabled-auto-labels guard, the
already-active-name guard, and the repeated call all return false with the
backend unchanged. -/
theorem C5_switch_guarded_idempotent_witness :
    switch_keymap eenvErr bC5 ⟨some "us", "", false⟩ = some (bC5, [], false) ∧
    switch_keymap eenvErr bC5 ⟨some "us", "", false⟩ = some (bC5, [], false) ∧
    switch_keymap eenvErr bC5 ⟨some "us", "", false⟩ = some (bC5, [], false) := by
  have h := C5_switch_guarded_idempotent eenvErr bC5 bC5 ⟨some "us", "", false⟩
    [] false
  exact ⟨h.1 rfl, h.2.1 "us" rfl rfl, h.2.2 (h.1 rfl)⟩

/-! Refinement of the geometry builder against the specification-side visit
list. -/

/-- The letters visited by the column loop from column `k` on, with the
points the builder records for them. -/
def colVisits (km : Option XkbKeymap) (L : Layout) (ha : Bool) (r : Nat)
    (y : ℚ) (slots : List KeySlot) (k : Nat) : List (Char × Point) :=
  (List.enumFrom k slots).filterMap (fun q =>
    (slotLetter km L ha r q.1).map
      (fun c => (c, ⟨precedingWidth L r q.1, y⟩)))

/-- The letters visited by the row loop from row `rIdx` on. -/
def rowsVisits (km : Option XkbKeymap) (L : Layout) (ha : Bool)
    (rows : List (List KeySlot)) (rIdx : Nat) : List (Char × Point) :=
  (List.enumFrom rIdx rows).flatMap (fun p =>
    colVisits km L ha p.1 (p.1 : ℚ) p.2 0)

theorem precedingWidth_succ (L : Layout) (r k : Nat) (rw : List ℚ) (w : ℚ)
    (h1 : L.key_sizes.get? r = some rw) (h2 : rw.get? k = some w) :
    precedingWidth L r (k + 1) = precedingWidth L r k + w := by
  have hrw : rowWidths L r = rw := by
    rw [rowWidths, List.getD_eq_getElem?_getD, ← List.get?_eq_getElem?, h1]
    rfl
  rw [List.get?_eq_getElem?] at h2
  unfold precedingWidth
  rw [hrw, List.take_succ, List.sum_append, h2]
  simp

theorem buildCols_refine (km : Option XkbKeymap) (L : Layout) (ha : Bool)
    (r : Nat) (y : ℚ) :
    ∀ (slots : List KeySlot) (k : Nat) (x : ℚ) (m M : List (Char × Point)),
    buildCols km L ha r y slots k x m = some M →
    x = precedingWidth L r k →
    M = (colVisits km L ha r y slots k).reverse ++ m := by
  intro slots
  induction slots with
  | nil =>
    intro k x m M h hx
    simp only [buildCols, Option.some.injEq] at h
    subst h
    simp [colVisits, List.enumFrom]
  | cons s rest ih =>
    intro k x m M h hx
    simp only [buildCols] at h
    cases hw : (L.key_sizes.get? r).bind (fun row => row.get? k) with
    | none => rw [hw] at h; exact Option.noConfusion h
    | some w =>
      rw [hw] at h
      simp only at h
      obtain ⟨rw0, hrw0, hw0⟩ := Option.bind_eq_some.mp hw
      have hx1 : x + w = precedingWidth L r (k + 1) := by
        rw [precedingWidth_succ L r k rw0 w hrw0 hw0, hx]
      have hcv : colVisits km L ha r y (s :: rest) k =
          (match slotLetter km L ha r k with
            | some c => [(c, (⟨precedingWidth L r k, y⟩ : Point))]
            | none => []) ++ colVisits km L ha r y rest (k + 1) := by
        rw [colVisits, List.enumFrom_cons, List.filterMap_cons]
        cases hsl : slotLetter km L ha r k with
        | none => simp [colVisits]
        | some c => simp [colVisits]
      cases hgd : L.get_key_data km ha k r with
      | none =>
        rw [hgd] at h
        simp only at h
        have hsl : slotLetter km L ha r k = none := by
          rw [slotLetter, hgd]
        rw [hcv, hsl]
        simpa using ih (k + 1) (x + w) m M h hx1
      | some label =>
        rw [hgd] at h
        simp only at h
        cases hct : label.cap_type with
        | Other =>
          rw [hct] at h
          simp only at h
          have hsl : slotLetter km L ha r k = none := by
            rw [slotLetter, hgd]
            simp [hct]
          rw [hcv, hsl]
          simpa using ih (k + 1) (x + w) m M h hx1
        | Letter =>
          rw [hct] at h
          simp only at h
          cases hhd : label.label.head? with
          | none =>
            rw [hhd] at h
            simp only at h
            have hsl : slotLetter km L ha r k = none := by
              rw [slotLetter, hgd]
              simp [hct, hhd]
            rw [hcv, hsl]
            simpa using ih (k + 1) (x + w) m M h hx1
          | some s0 =>
            rw [hhd] at h
            simp only at h
            cases hlh : lowerHead s0 with
            | none => rw [hlh] at h; exact Option.noConfusion h
            | some c =>
              rw [hlh] at h
              simp only at h
              have hsl : slotLetter km L ha r k = some c := by
                rw [slotLetter, hgd]
                simp [hct, hhd, hlh]
              rw [hcv, hsl]
              have hih := ih (k + 1) (x + w) ((c, ⟨x, y⟩) :: m) M h hx1
              rw [hih, hx]
              simp

theorem buildRows_refine (km : Option XkbKeymap) (L : Layout) (ha : Bool) :
    ∀ (rows : List (List KeySlot)) (rIdx : Nat) (y : ℚ)
      (m M : List (Char × Point)),
    buildRows km L ha rows rIdx y m = some M →
    y = (rIdx : ℚ) →
    M = (rowsVisits km L ha rows rIdx).reverse ++ m := by
  intro rows
  induction rows with
  | nil =>
    intro rIdx y m M h hy
    simp only [buildRows, Option.some.injEq] at h
    subst h
    simp [rowsVisits, List.enumFrom]
  | cons row rest ih =>
    intro rIdx y m M h hy
    simp only [buildRows] at h
    cases hc : buildCols km L ha rIdx y row 0 0 m with
    | none => rw [hc] at h; exact Option.noConfusion h
    | some m1 =>
      rw [hc] at h
      simp only at h
      have hm1 : m1 = (colVisits km L ha rIdx y row 0).reverse ++ m :=
        buildCols_refine km L ha rIdx y row 0 0 m m1 hc (by
          simp [precedingWidth])
      have hy1 : y + 1 = ((rIdx + 1 : Nat) : ℚ) := by
        rw [hy]
        push_cast
        ring
      have hrest := ih (rIdx + 1) (y + 1) m1 M h hy1
      rw [hrest, hm1, hy]
      have hrv : rowsVisits km L ha (row :: rest) rIdx =
          colVisits km L ha rIdx ((rIdx : ℕ) : ℚ) row 0 ++
            rowsVisits km L ha rest (rIdx + 1) := by
        rw [rowsVisits, List.enumFrom_cons, List.flatMap_cons]
        rfl
      rw [hrv, List.reverse_append, List.append_assoc]

/-- The map the source builds is the reverse of the specification-side
visit list (inserting conses to the front, so later visits sit earlier). -/
theorem build_refine (km : Option XkbKeymap) (L : Layout)
    (M : List (Char × Point))
    (h : build_key_to_char_point_map km L = some M) :
    M = (visits km L).reverse := by
  have hv : visits km L =
      rowsVisits km L ((km.map XkbKeymap.has_altgr).getD false)
        L.main_layout 0 := rfl
  rw [hv]
  have := buildRows_refine km L ((km.map XkbKeymap.has_altgr).getD false)
    L.main_layout 0 0 [] M h (by norm_num)
  simpa using this

theorem lookup_reverse (l : List (Char × Point)) (c : Char) :
    List.lookup c l.reverse =
      ((l.filter (fun e => e.1 == c)).getLast?).map Prod.snd := by
  induction l using List.reverseRecOn with
  | nil => rfl
  | append_singleton init a ih =>
    obtain ⟨k1, v1⟩ := a
    rw [List.reverse_append, List.filter_append]
    simp only [List.reverse_cons, List.reverse_nil, List.nil_append,
      List.singleton_append, List.filter_cons, List.filter_nil]
    by_cases hc : k1 = c
    · subst hc
      simp [List.lookup, List.getLast?_append]
    · have hne : (c == k1) = false := by simp [Ne.symm hc]
      have hpf : ((k1, v1).1 == c) = false := by simp [hc]
      simp [List.lookup, hne, hpf, ih]

/-- C2 counterexample: the claim says the y-cursor advances by the
configured row height, so a letter in row 1 of a layout with row height 2
should sit at y = 2.  On the source, `pos_y += 1.0`, so the letter sits at
y = 1 ≠ 1 * rowHeight. -/
def LC2 : Layout :=
  { main_layout := [[⟨0⟩], [⟨1⟩]]
    key_sizes := [[1], [1]]
    row_height := 2
    auto_labels := some true
    get_key_data := fun _ _ k r =>
      if r = 0 ∧ k = 0 then some ⟨["q"], KeyCapType.Letter⟩
      else if r = 1 ∧ k = 0 then some ⟨["a"], KeyCapType.Letter⟩
      else none }

/-- C2 counterexample: on the two-row layout `LC2` with row height 2, the
letter "a" recorded from row index 1 has y-coordinate 1, not
1 * rowHeight = 2: the builder advances the y-cursor by the fixed unit 1.0,
not by the configured row height. -/
theorem build_LC2_eval :
    build_key_to_char_point_map none LC2 =
      some [('a', ⟨0, 1⟩), ('q', ⟨0, 0⟩)] := by
  have hq : lowerHead "q" = some 'q' := by decide
  have ha : lowerHead "a" = some 'a' := by decide
  simp [build_key_to_char_point_map, buildRows, buildCols, LC2, hq, ha,
    List.get?]

theorem C2_row_height_counterexample :
    build_key_to_char_point_map none LC2 =
      some [('a', ⟨0, 1⟩), ('q', ⟨0, 0⟩)] ∧
    List.lookup 'a' [('a', (⟨0, 1⟩ : Point)), ('q', ⟨0, 0⟩)] =
      some ⟨0, 1⟩ ∧
    (1 : ℚ) ≠ 1 * LC2.row_height := by
  refine ⟨build_LC2_eval, ?_, ?_⟩
  · rfl
  · norm_num [LC2]

/-- C2 (amended): the layout geometry builder walks rows top-to-bottom and
columns left-to-right, advancing the x-cursor by each key's width from the
per-key width table and advancing the y-cursor by the fixed unit 1.0 after
each row (not by the configured row height), so the resulting map is
exactly the reversed row-major visit list in which every recorded letter's
point is (sum of the widths of the keys preceding it in its row, row
index). -/
theorem C2_geometry_cursor_walk (km : Option XkbKeymap) (L : Layout)
    (M : List (Char × Point))
    (h : build_key_to_char_point_map km L = some M) :
    M = (visits km L).reverse ∧
    ∀ e ∈ visits km L, ∃ r k,
      slotLetter km L ((km.map XkbKeymap.has_altgr).getD false) r k =
        some e.1 ∧
      e.2 = ⟨precedingWidth L r k, (r : ℚ)⟩ := by
  refine ⟨build_refine km L M h, ?_⟩
  intro e he
  simp only [visits] at he
  obtain ⟨p, hp, he2⟩ := List.mem_flatMap.mp he
  obtain ⟨q, hq, he3⟩ := List.mem_filterMap.mp he2
  cases hsl : slotLetter km L ((km.map XkbKeymap.has_altgr).getD false)
      p.1 q.1 with
  | none => rw [hsl] at he3; exact Option.noConfusion he3
  | some c =>
    rw [hsl] at he3
    simp only [Option.map_some', Option.some.injEq] at he3
    subst he3
    exact ⟨p.1, q.1, hsl, rfl⟩

/-- C2 witness: the amended theorem applied to the concrete layout `LC2`;
the recorded letter "a" sits at (0, 1). -/
theorem C2_geometry_cursor_walk_witness :
    [('a', (⟨0, 1⟩ : Point)), ('q', ⟨0, 0⟩)] = (visits none LC2).reverse ∧
    ∀ e ∈ visits none LC2, ∃ r k,
      slotLetter none LC2 ((Option.map XkbKeymap.has_altgr none).getD false)
        r k = some e.1 ∧
      e.2 = ⟨precedingWidth LC2 r k, (r : ℚ)⟩ :=
  C2_geometry_cursor_walk none LC2 [('a', ⟨0, 1⟩), ('q', ⟨0, 0⟩)]
    build_LC2_eval

/-- C7: for every keymap and layout on which the builder completes, the
map's entry for a letter `c` is exactly the position of the last-visited
Letter slot (in row-major order) resolving to `c`, and there is an entry
iff some Letter slot resolves to `c` (non-letter and unlabeled slots
contribute nothing, since they contribute no visit). -/
theorem C7_letter_entries_last_write_wins (km : Option XkbKeymap)
    (L : Layout) (M : List (Char × Point))
    (h : build_key_to_char_point_map km L = some M) (c : Char) :
    List.lookup c M =
      (((visits km L).filter (fun e => e.1 == c)).getLast?).map Prod.snd := by
  rw [build_refine km L M h, lookup_reverse]

/-- A one-row layout with the letter "a" on two keys of widths 2 and 3,
used to exhibit last-write-wins. -/
def LC7 : Layout :=
  { main_layout := [[⟨0⟩, ⟨1⟩]]
    key_sizes := [[2, 3]]
    row_height := 1
    auto_labels := some true
    get_key_data := fun _ _ k r =>
      if r = 0 ∧ k ≤ 1 then some ⟨["a"], KeyCapType.Letter⟩ else none }

theorem build_LC7_eval :
    build_key_to_char_point_map none LC7 =
      some [('a', ⟨2, 0⟩), ('a', ⟨0, 0⟩)] := by
  have ha : lowerHead "a" = some 'a' := by decide
  simp [build_key_to_char_point_map, buildRows, buildCols, LC7, ha,
    List.get?]

/-- C7 witness: on `LC7`, where "a" appears on two slots, the map's entry
for "a" is the later-visited slot's position (x = 2, the width of the first
key). -/
theorem C7_letter_entries_last_write_wins_witness :
    List.lookup 'a' [('a', (⟨2, 0⟩ : Point)), ('a', ⟨0, 0⟩)] =
      (((visits none LC7).filter (fun e => e.1 == 'a')).getLast?).map
        Prod.snd :=
  C7_letter_entries_last_write_wins none LC7
    [('a', ⟨2, 0⟩), ('a', ⟨0, 0⟩)] build_LC7_eval 'a'

end WlxKbd
